import Mathlib

/-!
Shallow embedding of the taskgenie backend core: the task query/update
service (src/backend/services/task_service.py), its request/response
schemas (src/backend/schemas/task.py), the entity model
(src/backend/models/task.py, src/backend/models/attachment.py), the HTTP
query-parameter guard (src/backend/api/v1/tasks.py) and the startup
migration sequencing (src/backend/database.py).

Datetimes are modelled as integers (only their ordering matters to the
code), JSON metadata maps as association lists, and the relational store
as a list of rows. Python floor division on the nonnegative range admitted
by the API coincides with Nat division; the division-by-zero exception of
Python is made explicit with an Except result.
-/

namespace TaskGenie

/-- JSON object values are irrelevant to the core logic; a metadata map is
modelled as an association list of string keys to string-rendered values. -/
abbrev Metadata := List (String × String)

/-- TaskStatus enum from src/backend/schemas/task.py. -/
inductive TaskStatus
  | pending
  | in_progress
  | completed
  deriving DecidableEq, Repr

/-- TaskPriority enum from src/backend/schemas/task.py. -/
inductive TaskPriority
  | low
  | medium
  | high
  | critical
  deriving DecidableEq, Repr

/-- A row of the tasks table (src/backend/models/task.py). The metadata
column is mapped to the attribute meta_data, as in the model. -/
structure Task where
  id : String
  title : String
  description : Option String
  status : TaskStatus
  priority : TaskPriority
  eta : Option Int
  created_at : Int
  updated_at : Int
  tags : Option (List String)
  meta_data : Option Metadata
  deriving DecidableEq, Repr

/-- Attachment type enum (src/backend/schemas/attachment.py). -/
inductive AttachmentType
  | gmail
  | github
  | url
  | doc
  deriving DecidableEq, Repr

/-- A row of the attachments table (src/backend/models/attachment.py). -/
structure Attachment where
  id : String
  task_id : String
  type : AttachmentType
  reference : String
  title : Option String
  content : Option String
  meta_data : Option Metadata
  created_at : Int
  deriving DecidableEq, Repr

/-- The attachments stored for a given task id: the rows of the
attachments table whose foreign key task_id references the task (the
relationship Task.attachments in src/backend/models/task.py). -/
def attachmentsOf (atts : List Attachment) (task_id : String) : List Attachment :=
  atts.filter (fun a => a.task_id == task_id)

/-- TaskResponse schema (src/backend/schemas/task.py): the shape of a
task returned by the service, attachments field included. -/
structure TaskResponse where
  id : String
  title : String
  description : Option String
  status : TaskStatus
  priority : TaskPriority
  eta : Option Int
  created_at : Int
  updated_at : Int
  tags : Option (List String)
  metadata : Option Metadata
  attachments : List Attachment
  deriving DecidableEq, Repr

/-- TaskListResponse schema (src/backend/schemas/task.py). -/
structure TaskListResponse where
  tasks : List TaskResponse
  total : Nat
  page : Nat
  page_size : Nat
  deriving DecidableEq, Repr

/-- TaskNotFoundError (src/backend/services/task_service.py): carries the
missing id, the stable code and a message. -/
structure TaskNotFoundError where
  task_id : String
  code : String
  message : String
  deriving DecidableEq, Repr

/-- Stable error code carried by TaskNotFoundError. -/
def taskNotFoundCode : String := "TASK_NOT_FOUND"

/-- Message prefix of TaskNotFoundError. -/
def taskNotFoundPrefix : String := "Task not found: "

/-- Constructor of TaskNotFoundError, as its init method builds it. -/
def mkTaskNotFoundError (task_id : String) : TaskNotFoundError :=
  { task_id := task_id, code := taskNotFoundCode
    message := taskNotFoundPrefix ++ task_id }

/-- _task_to_response_dict (src/backend/services/task_service.py):
converts a Task row to the TaskResponse shape; meta_data is exposed under
the metadata key and the attachments field is always the empty list. -/
def _task_to_response_dict (task : Task) : TaskResponse :=
  { id := task.id
    title := task.title
    description := task.description
    status := task.status
    priority := task.priority
    eta := task.eta
    created_at := task.created_at
    updated_at := task.updated_at
    tags := task.tags
    metadata := task.meta_data
    attachments := [] }

/-- _apply_task_filters (src/backend/services/task_service.py) as a row
predicate: each supplied filter adds a WHERE conjunct. The SQL comparisons
Task.eta <= due_before and Task.eta >= due_after are NULL (hence not
satisfied) when eta is NULL, so a row with no eta never matches a due
filter. -/
def _apply_task_filters (status : Option TaskStatus) (priority : Option TaskPriority)
    (due_before : Option Int) (due_after : Option Int) (t : Task) : Bool :=
  (match status with
    | none => true
    | some s => decide (t.status = s)) &&
  (match priority with
    | none => true
    | some p => decide (t.priority = p)) &&
  (match due_before with
    | none => true
    | some b =>
      match t.eta with
      | none => false
      | some e => decide (e ≤ b)) &&
  (match due_after with
    | none => true
    | some a =>
      match t.eta with
      | none => false
      | some e => decide (a ≤ e))

/-- get_task (src/backend/services/task_service.py): select the row whose
primary key equals task_id; TaskNotFoundError when absent, otherwise the
response dict of the row. The attachments relationship is never loaded. -/
def get_task (store : List Task) (task_id : String) :
    Except TaskNotFoundError TaskResponse :=
  match store.find? (fun t => t.id == task_id) with
  | none => .error (mkTaskNotFoundError task_id)
  | some t => .ok (_task_to_response_dict t)

/-- ORDER BY Task.created_at DESC, Task.id ASC of list_tasks, as a Boolean
comes-no-later-than relation between rows. -/
def taskOrder (t1 t2 : Task) : Bool :=
  decide (t2.created_at < t1.created_at) ||
    (decide (t1.created_at = t2.created_at) && decide (t1.id ≤ t2.id))

/-- The one failure list_tasks itself can raise: the Python integer
division offset // limit raises ZeroDivisionError when limit is zero. -/
inductive ListTasksError
  | zeroDivision
  deriving DecidableEq, Repr

/-- list_tasks (src/backend/services/task_service.py): filter, count with
the same filters, order by created_at descending then id ascending, apply
OFFSET then LIMIT, and report page = offset // limit + 1 and
page_size = limit. -/
def list_tasks (store : List Task) (status : Option TaskStatus)
    (priority : Option TaskPriority) (due_before : Option Int)
    (due_after : Option Int) (limit : Nat) (offset : Nat) :
    Except ListTasksError TaskListResponse :=
  let filtered := store.filter (_apply_task_filters status priority due_before due_after)
  let total := filtered.length
  let ordered := filtered.mergeSort taskOrder
  let pageTasks := (ordered.drop offset).take limit
  if limit = 0 then
    .error .zeroDivision
  else
    .ok { tasks := pageTasks.map _task_to_response_dict
          total := total
          page := offset / limit + 1
          page_size := limit }

/-- Query-parameter guard of list_tasks_endpoint (src/backend/api/v1/tasks.py):
limit is declared Query(50, ge=1) and offset Query(0, ge=0), so the HTTP
layer admits a request only when 1 <= limit and 0 <= offset. -/
def list_tasks_endpoint_guard (limit offset : Int) : Bool :=
  decide (1 ≤ limit) && decide (0 ≤ offset)

/-- TaskUpdate schema (src/backend/schemas/task.py): every field is
optional and absent is distinguished from explicitly null (pydantic
exclude_unset). The outer Option is present-vs-absent, the inner Option is
the supplied value or an explicit null. -/
structure TaskUpdate where
  title : Option (Option String)
  description : Option (Option String)
  status : Option (Option TaskStatus)
  priority : Option (Option TaskPriority)
  eta : Option (Option Int)
  tags : Option (Option (List String))
  metadata : Option (Option Metadata)
  deriving DecidableEq, Repr

/-- The TaskUpdate document with every field absent. -/
def emptyTaskUpdate : TaskUpdate :=
  { title := none, description := none, status := none, priority := none
    eta := none, tags := none, metadata := none }

/-- Message raised by TaskUpdate.validate_title_not_null. -/
def titleNullMessage : String := "title cannot be null"

/-- Message for a title string outside the length bounds of
Field(None, min_length=1, max_length=255). -/
def titleLengthMessage : String := "title length out of range"

/-- TaskUpdate.validate_title_not_null (src/backend/schemas/task.py): a
before-validator that rejects a document whose title key is present with
an explicit null. -/
def validate_title_not_null (u : TaskUpdate) : Except String TaskUpdate :=
  if u.title = some none then .error titleNullMessage else .ok u

/-- Pydantic validation of a TaskUpdate document: the before-validator
validate_title_not_null, then the field constraint
title: Field(None, min_length=1, max_length=255) on a supplied string. -/
def validateTaskUpdate (u : TaskUpdate) : Except String TaskUpdate :=
  match validate_title_not_null u with
  | .error e => .error e
  | .ok u =>
    match u.title with
    | some (some s) =>
      if 1 ≤ s.length ∧ s.length ≤ 255 then .ok u else .error titleLengthMessage
    | _ => .ok u

/-- The field-assignment block of update_task
(src/backend/services/task_service.py), in source order: status and
priority are assigned only when present and non-null; title, description,
eta, tags and metadata are assigned whenever present. An explicitly null
title never reaches this point for a validated document
(validate_title_not_null rejects it), so that case assigns nothing. -/
def applyTaskUpdate (task : Task) (u : TaskUpdate) : Task :=
  let task :=
    match u.status with
    | some (some s) => { task with status := s }
    | _ => task
  let task :=
    match u.priority with
    | some (some p) => { task with priority := p }
    | _ => task
  let task :=
    match u.title with
    | some (some v) => { task with title := v }
    | _ => task
  let task :=
    match u.description with
    | some v => { task with description := v }
    | _ => task
  let task :=
    match u.eta with
    | some v => { task with eta := v }
    | _ => task
  let task :=
    match u.tags with
    | some v => { task with tags := v }
    | _ => task
  let task :=
    match u.metadata with
    | some v => { task with meta_data := v }
    | _ => task
  task

/-- Whether update_task assigns at least one attribute for this document:
exactly then the ORM flush issues an UPDATE and the onupdate clause of
Task.updated_at (src/backend/models/task.py) refreshes the timestamp. -/
def updateTouches (u : TaskUpdate) : Bool :=
  (match u.status with
    | some (some _) => true
    | _ => false) ||
  (match u.priority with
    | some (some _) => true
    | _ => false) ||
  u.title.isSome || u.description.isSome || u.eta.isSome ||
  u.tags.isSome || u.metadata.isSome

/-- update_task (src/backend/services/task_service.py): select the row by
id (TaskNotFoundError when absent), assign the supplied fields, flush
(refreshing updated_at when an attribute was assigned), and return the
response dict together with the store after the write. -/
def update_task (store : List Task) (task_id : String) (u : TaskUpdate)
    (now : Int) : Except TaskNotFoundError (TaskResponse × List Task) :=
  match store.find? (fun t => t.id == task_id) with
  | none => .error (mkTaskNotFoundError task_id)
  | some t =>
    let t1 := applyTaskUpdate t u
    let t2 := if updateTouches u then { t1 with updated_at := now } else t1
    .ok (_task_to_response_dict t2,
      store.map (fun s => if s.id == task_id then t2 else s))

/-- Failures of the PATCH endpoint pipeline: 422 pydantic validation or
404 TaskNotFoundError. -/
inductive UpdateEndpointError
  | validation (msg : String)
  | notFound (e : TaskNotFoundError)
  deriving DecidableEq, Repr

/-- update_task_endpoint (src/backend/api/v1/tasks.py): the request body
is parsed and validated as a TaskUpdate before update_task runs; a
validation failure means the service, hence the store, is never touched. -/
def update_task_endpoint (store : List Task) (task_id : String)
    (raw : TaskUpdate) (now : Int) :
    Except UpdateEndpointError (TaskResponse × List Task) :=
  match validateTaskUpdate raw with
  | .error e => .error (.validation e)
  | .ok u =>
    match update_task store task_id u now with
    | .error e => .error (.notFound e)
    | .ok r => .ok r

/-- The store after an endpoint call: the written store on success; the
transaction is rolled back on error (get_db in src/backend/database.py),
leaving the store as it was. -/
def storeAfter (store : List Task)
    (r : Except UpdateEndpointError (TaskResponse × List Task)) : List Task :=
  match r with
  | .ok (_, s) => s
  | .error _ => store

/-- TaskCreate schema (src/backend/schemas/task.py), after validation:
status and priority already carry their defaults (pending, medium) when
they were omitted. -/
structure TaskCreate where
  title : String
  description : Option String
  status : TaskStatus
  priority : TaskPriority
  eta : Option Int
  tags : Option (List String)
  metadata : Option Metadata
  deriving DecidableEq, Repr

/-- create_task (src/backend/services/task_service.py): a fresh id is
generated, the row is inserted and the server defaults set created_at and
updated_at to the same current timestamp, modelled as now. -/
def create_task (new_id : String) (c : TaskCreate) (now : Int) : Task :=
  { id := new_id
    title := c.title
    description := c.description
    status := c.status
    priority := c.priority
    eta := c.eta
    created_at := now
    updated_at := now
    tags := c.tags
    meta_data := c.metadata }

/-- The state of the database target that _run_migrations_if_needed
(src/backend/database.py) inspects: whether the URL is a sqlite URL,
whether its path is the in-memory marker, whether the database file
exists, whether the sqlite_master probe for the alembic_version table
raises, whether that table exists, and the version it stores (None when
the table is absent or empty). -/
structure DbEnv where
  isSqlite : Bool
  isMemory : Bool
  fileExists : Bool
  versionCheckFails : Bool
  versionTableExists : Bool
  storedVersion : Option String
  deriving DecidableEq, Repr

/-- The head revision of the migration scripts
(src/backend/migrations/versions/001_initial_schema.py). -/
def latestKnownVersion : String := "001_initial"

/-- The decision of _run_migrations_if_needed (src/backend/database.py):
true exactly when _run_migrations_sync is invoked. Non-sqlite URLs always
migrate; the in-memory path always migrates; a missing database file
migrates; then migrations run when the sqlite_master check for the
alembic_version table raises or reports the table absent. The stored
version number itself is never read. -/
def _run_migrations_if_needed (env : DbEnv) : Bool :=
  if !env.isSqlite then true
  else if env.isMemory then true
  else if !env.fileExists then true
  else if env.versionCheckFails then true
  else !env.versionTableExists

/-- The migration-need predicate in the words of the spec, for comparison
with the decision the code makes: the file/connection does not exist yet,
or the version-tracking table is absent, or the stored version differs
from the latest known version; an in-memory database always needs
migration. -/
def needsMigrationSpec (env : DbEnv) : Bool :=
  env.isMemory || !env.fileExists || !env.versionTableExists ||
    decide (env.storedVersion ≠ some latestKnownVersion)

/-- Outcome of the alembic upgrade command attempted by
_run_migrations_sync. -/
inductive UpgradeOutcome
  | success
  | failure
  deriving DecidableEq, Repr

/-- Error message of the RuntimeError raised on a failed startup
migration in production mode. -/
def migrationFailedMessage : String := "Database migration failed"

/-- _run_migrations_sync (src/backend/database.py): skip silently when
alembic.ini is missing; otherwise run the upgrade, and on failure either
log and continue (debug mode, permissive) or raise RuntimeError
(production mode, strict). -/
def _run_migrations_sync (debug : Bool) (alembicIniExists : Bool)
    (outcome : UpgradeOutcome) : Except String Unit :=
  if !alembicIniExists then .ok ()
  else
    match outcome with
    | .success => .ok ()
    | .failure => if debug then .ok () else .error migrationFailedMessage

/-! Concrete sample data for witnesses and counterexamples. -/

/-- Sample task id. -/
def cId1 : String := "task-1"

/-- Second sample task id. -/
def cId2 : String := "task-2"

/-- Sample title. -/
def cTitleA : String := "Write spec"

/-- Second sample title. -/
def cTitleB : String := "Review spec"

/-- Sample description. -/
def cDescA : String := "stale description"

/-- Sample tag. -/
def cTagA : String := "urgent"

/-- Sample attachment id. -/
def cAttId : String := "att-1"

/-- Sample attachment reference. -/
def cRefA : String := "https://example.com/doc"

/-- A stored migration version that is not the head revision. -/
def cOldVersion : String := "000_legacy"

/-- A concrete stored task. -/
def sampleTask1 : Task :=
  { id := cId1, title := cTitleA, description := some cDescA
    status := .pending, priority := .low, eta := some 5
    created_at := 10, updated_at := 10, tags := some [cTagA], meta_data := none }

/-- A second concrete stored task, with no eta. -/
def sampleTask2 : Task :=
  { id := cId2, title := cTitleB, description := none
    status := .completed, priority := .high, eta := none
    created_at := 12, updated_at := 12, tags := none, meta_data := none }

/-- A concrete attachment owned by sampleTask1. -/
def sampleAttachment : Attachment :=
  { id := cAttId, task_id := cId1, type := .url, reference := cRefA
    title := none, content := none, meta_data := none, created_at := 11 }

/-- A concrete update document touching several fields: new title, cleared
description, explicitly null status, new priority, new eta, cleared
metadata; tags absent. -/
def sampleUpdate : TaskUpdate :=
  { title := some (some cTitleB), description := some none
    status := some none, priority := some (some .high)
    eta := some (some 99), tags := none, metadata := some none }

/-- The update document that sets title explicitly to null. -/
def nullTitleUpdate : TaskUpdate :=
  { title := some none, description := none, status := none, priority := none
    eta := none, tags := none, metadata := none }

/-- A concrete creation document. -/
def sampleCreate : TaskCreate :=
  { title := cTitleA, description := none, status := .pending
    priority := .medium, eta := some 5, tags := none, metadata := none }

/-- A sqlite file database that exists, has the alembic_version table, and
stores a version different from the head revision. -/
def cenvStale : DbEnv :=
  { isSqlite := true, isMemory := false, fileExists := true
    versionCheckFails := false, versionTableExists := true
    storedVersion := some cOldVersion }

/-! Helper lemmas. -/

theorem applyTaskUpdate_fields (t : Task) (u : TaskUpdate) :
    applyTaskUpdate t u =
      { id := t.id
        title :=
          match u.title with
          | some (some v) => v
          | _ => t.title
        description :=
          match u.description with
          | some v => v
          | _ => t.description
        status :=
          match u.status with
          | some (some s) => s
          | _ => t.status
        priority :=
          match u.priority with
          | some (some p) => p
          | _ => t.priority
        eta :=
          match u.eta with
          | some v => v
          | _ => t.eta
        created_at := t.created_at
        updated_at := t.updated_at
        tags :=
          match u.tags with
          | some v => v
          | _ => t.tags
        meta_data :=
          match u.metadata with
          | some v => v
          | _ => t.meta_data } := by
  rcases u with ⟨ti, de, st, pr, et, tg, md⟩
  rcases ti with _ | ⟨_ | ti⟩ <;> rcases de with _ | de <;>
    rcases st with _ | ⟨_ | st⟩ <;> rcases pr with _ | ⟨_ | pr⟩ <;>
    rcases et with _ | et <;> rcases tg with _ | tg <;> rcases md with _ | md <;>
    rfl

theorem list_tasks_eq_of_ne_zero (store : List Task) (status : Option TaskStatus)
    (priority : Option TaskPriority) (due_before due_after : Option Int)
    (limit offset : Nat) (h : limit ≠ 0) :
    list_tasks store status priority due_before due_after limit offset =
      .ok { tasks :=
              ((((store.filter
                    (_apply_task_filters status priority due_before due_after)).mergeSort
                  taskOrder).drop offset).take limit).map _task_to_response_dict
            total :=
              (store.filter (_apply_task_filters status priority due_before due_after)).length
            page := offset / limit + 1
            page_size := limit } := by
  simp [list_tasks, h]

theorem taskOrder_trans (a b c : Task) (hab : taskOrder a b = true)
    (hbc : taskOrder b c = true) : taskOrder a c = true := by
  simp only [taskOrder, Bool.or_eq_true, Bool.and_eq_true,
    decide_eq_true_eq] at hab hbc ⊢
  rcases hab with h1 | ⟨h1, h2⟩ <;> rcases hbc with h3 | ⟨h3, h4⟩
  · exact Or.inl (by omega)
  · exact Or.inl (by omega)
  · exact Or.inl (by omega)
  · exact Or.inr ⟨by omega, le_trans h2 h4⟩

theorem taskOrder_total (a b : Task) : (taskOrder a b || taskOrder b a) = true := by
  simp only [taskOrder, Bool.or_eq_true, Bool.and_eq_true, decide_eq_true_eq]
  rcases lt_trichotomy a.created_at b.created_at with h | h | h
  · exact Or.inr (Or.inl h)
  · rcases le_total a.id b.id with hid | hid
    · exact Or.inl (Or.inr ⟨h, hid⟩)
    · exact Or.inr (Or.inr ⟨h.symm, hid⟩)
  · exact Or.inl (Or.inl h)

theorem join_pages_take {α : Type} (l : List α) (m k : Nat) :
    ((List.range k).map (fun i => (l.drop (i * m)).take m)).flatten =
      l.take (k * m) := by
  induction k with
  | zero => simp
  | succ k ih =>
    rw [List.range_succ, List.map_append, List.flatten_append, ih, Nat.succ_mul,
      List.take_add]
    simp

/-! Theorems for the claims. -/

/-- C8: updating the task created from any creation document with an empty
update document is a no-op: the call returns exactly the created record
and leaves the store unchanged, and updated_at does not advance (it still
equals the creation timestamp), because no attribute is assigned and no
UPDATE is flushed. -/
theorem update_with_empty_document_is_noop (c : TaskCreate) (new_id : String)
    (now later : Int) :
    update_task [create_task new_id c now] new_id emptyTaskUpdate later =
      .ok (_task_to_response_dict (create_task new_id c now),
        [create_task new_id c now]) ∧
    (_task_to_response_dict (create_task new_id c now)).updated_at = now := by
  constructor
  · simp [update_task, create_task, emptyTaskUpdate, applyTaskUpdate, updateTouches]
  · rfl

/-- C2: an update document that sets title explicitly to null always fails
validation — the endpoint rejects it before the service runs, it is never
silently ignored and never applied — and the store, hence the stored title
of every task, is unchanged afterwards. -/
theorem null_title_update_rejected (store : List Task) (task_id : String)
    (u : TaskUpdate) (now : Int) (hnull : u.title = some none) :
    update_task_endpoint store task_id u now =
      .error (.validation titleNullMessage) ∧
    storeAfter store (update_task_endpoint store task_id u now) = store := by
  have hv : validateTaskUpdate u = .error titleNullMessage := by
    simp [validateTaskUpdate, validate_title_not_null, hnull]
  exact ⟨by simp [update_task_endpoint, hv],
    by simp [storeAfter, update_task_endpoint, hv]⟩

/-- Witness for C2 at a concrete store and update document. -/
theorem null_title_update_rejected_witness :
    update_task_endpoint [sampleTask1] cId1 nullTitleUpdate 20 =
      .error (.validation titleNullMessage) ∧
    storeAfter [sampleTask1]
      (update_task_endpoint [sampleTask1] cId1 nullTitleUpdate 20) =
      [sampleTask1] :=
  null_title_update_rejected [sampleTask1] cId1 nullTitleUpdate 20 rfl

/-- C9: migration-failure handling is policy-gated. In strict mode
(production, debug = false) a failed upgrade is fatal: _run_migrations_sync
raises the RuntimeError and the service never reaches Ready. In permissive
mode (development, debug = true) the failure is logged and startup
proceeds. In every other case — the upgrade succeeds, or there is nothing
to run because alembic.ini is absent — startup migration completes without
error. -/
theorem migration_failure_policy (debug iniExists : Bool)
    (outcome : UpgradeOutcome) :
    (iniExists = true → outcome = .failure → debug = false →
      _run_migrations_sync debug iniExists outcome = .error migrationFailedMessage) ∧
    (outcome = .failure → debug = true →
      _run_migrations_sync debug iniExists outcome = .ok ()) ∧
    (outcome = .success → _run_migrations_sync debug iniExists outcome = .ok ()) ∧
    (iniExists = false → _run_migrations_sync debug iniExists outcome = .ok ()) := by
  rcases debug <;> rcases iniExists <;> rcases outcome <;>
    simp [_run_migrations_sync]

/-- C10: the page computation in list_tasks divides offset by limit with
no guard in the service: every call with limit >= 1 is total and never
raises; parameters admitted by the HTTP guard (ge=1, ge=0) never reach the
division-by-zero branch; a direct service call with limit = 0 raises the
division-by-zero error. -/
theorem list_tasks_division_guard (store : List Task)
    (status : Option TaskStatus) (priority : Option TaskPriority)
    (due_before due_after : Option Int) (limit offset : Nat) :
    (1 ≤ limit →
      ∃ r, list_tasks store status priority due_before due_after limit offset = .ok r) ∧
    (∀ lim off : Int, list_tasks_endpoint_guard lim off = true →
      ∃ r, list_tasks store status priority due_before due_after
        lim.toNat off.toNat = .ok r) ∧
    list_tasks store status priority due_before due_after 0 offset =
      .error .zeroDivision := by
  refine ⟨?_, ?_, ?_⟩
  · intro h
    exact ⟨_, list_tasks_eq_of_ne_zero store status priority due_before due_after
      limit offset (by omega)⟩
  · intro lim off hg
    have h1 : (1 : Int) ≤ lim := by
      have := hg
      simp [list_tasks_endpoint_guard] at this
      exact this.1
    exact ⟨_, list_tasks_eq_of_ne_zero store status priority due_before due_after
      lim.toNat off.toNat (by omega)⟩
  · simp [list_tasks]

/-- Witness for C10 at a concrete store and parameters. -/
theorem list_tasks_division_guard_witness :
    (1 ≤ 3 →
      ∃ r, list_tasks [sampleTask1] none none none none 3 7 = .ok r) ∧
    (∀ lim off : Int, list_tasks_endpoint_guard lim off = true →
      ∃ r, list_tasks [sampleTask1] none none none none
        lim.toNat off.toNat = .ok r) ∧
    list_tasks [sampleTask1] none none none none 0 7 = .error .zeroDivision :=
  list_tasks_division_guard [sampleTask1] none none none none 3 7

/-- C6 counterexample: a sqlite file database that exists and has the
alembic_version table, but whose stored version differs from the head
revision, is not treated as needing migration by
_run_migrations_if_needed, though the claimed predicate says it must be. -/
theorem migration_check_stale_version_cex :
    cenvStale.storedVersion ≠ some latestKnownVersion ∧
    needsMigrationSpec cenvStale = true ∧
    _run_migrations_if_needed cenvStale = false := by
  refine ⟨by decide, by decide, rfl⟩

/-- C6 amended: the startup check treats the store as needing migration
exactly when the URL is not sqlite, the sqlite target is in-memory, the
database file does not exist yet, the version-table probe raises, or the
alembic_version table is absent; the stored version value is never
consulted, so a stale version with the table present does not trigger
migration. An in-memory database is always treated as needing migration. -/
theorem migration_check_characterization (env : DbEnv) :
    (_run_migrations_if_needed env = true ↔
      (env.isSqlite = false ∨ env.isMemory = true ∨ env.fileExists = false ∨
        env.versionCheckFails = true ∨ env.versionTableExists = false)) ∧
    (∀ v, _run_migrations_if_needed { env with storedVersion := v } =
      _run_migrations_if_needed env) ∧
    (env.isMemory = true → _run_migrations_if_needed env = true) := by
  rcases env with ⟨s, m, f, c, vt, sv⟩
  refine ⟨?_, fun v => rfl, ?_⟩ <;>
    rcases s <;> rcases m <;> rcases f <;> rcases c <;> rcases vt <;>
      simp [_run_migrations_if_needed]

/-- C7 counterexample: sampleTask1 has one stored attachment, yet get_task
returns its record with an empty attachments list, not the populated
attachments. -/
theorem get_task_attachments_cex :
    ∃ r, get_task [sampleTask1] cId1 = .ok r ∧
      attachmentsOf [sampleAttachment] cId1 = [sampleAttachment] ∧
      r.attachments = [] ∧
      r.attachments ≠ attachmentsOf [sampleAttachment] cId1 := by
  refine ⟨_task_to_response_dict sampleTask1, ?_, rfl, rfl, by decide⟩
  simp [get_task, sampleTask1, cId1]

/-- C7 amended: for every existing task id, get_task returns the stored
scalar fields of the row with the attachments field always the empty list
(the attachments relationship is never serialized), and it raises
TaskNotFoundError exactly when no record with that id exists. -/
theorem get_task_returns_record (store : List Task) (task_id : String) :
    (store.find? (fun t => t.id == task_id) = none ↔
      ∀ t ∈ store, t.id ≠ task_id) ∧
    (store.find? (fun t => t.id == task_id) = none →
      get_task store task_id = .error (mkTaskNotFoundError task_id)) ∧
    (∀ t, store.find? (fun t0 => t0.id == task_id) = some t →
      get_task store task_id =
        .ok { id := t.id, title := t.title, description := t.description
              status := t.status, priority := t.priority, eta := t.eta
              created_at := t.created_at, updated_at := t.updated_at
              tags := t.tags, metadata := t.meta_data, attachments := [] }) := by
  refine ⟨?_, ?_, ?_⟩
  · simp [List.find?_eq_none]
  · intro h; simp [get_task, h]
  · intro t h; simp [get_task, h, _task_to_response_dict]

/-- C1: for every existing task and every update document that passed
validation, update_task modifies exactly the fields present in the
document and leaves absent fields untouched; an explicit null for a
nullable field (description, eta, tags, metadata) clears that field, while
an explicit null for status or priority results in no change to that
field. -/
theorem update_task_partial_semantics (store : List Task) (task_id : String)
    (t : Task) (u : TaskUpdate) (now : Int)
    (_hvalid : validateTaskUpdate u = .ok u)
    (hfind : store.find? (fun s => s.id == task_id) = some t) :
    ∃ resp store2, update_task store task_id u now = .ok (resp, store2) ∧
      (∀ s, u.status = some (some s) → resp.status = s) ∧
      (u.status = none ∨ u.status = some none → resp.status = t.status) ∧
      (∀ p, u.priority = some (some p) → resp.priority = p) ∧
      (u.priority = none ∨ u.priority = some none → resp.priority = t.priority) ∧
      (∀ v, u.title = some (some v) → resp.title = v) ∧
      (u.title = none → resp.title = t.title) ∧
      (∀ v, u.description = some v → resp.description = v) ∧
      (u.description = none → resp.description = t.description) ∧
      (∀ v, u.eta = some v → resp.eta = v) ∧
      (u.eta = none → resp.eta = t.eta) ∧
      (∀ v, u.tags = some v → resp.tags = v) ∧
      (u.tags = none → resp.tags = t.tags) ∧
      (∀ v, u.metadata = some v → resp.metadata = v) ∧
      (u.metadata = none → resp.metadata = t.meta_data) := by
  have happ := applyTaskUpdate_fields t u
  simp only [update_task, hfind]
  refine ⟨_, _, rfl, ?_, ?_, ?_, ?_, ?_, ?_, ?_, ?_, ?_, ?_, ?_, ?_, ?_, ?_⟩
  all_goals first
    | (rintro (hv | hv) <;> cases h : updateTouches u <;>
        simp [h, _task_to_response_dict, happ, hv])
    | (intro v hv
       cases h : updateTouches u <;>
         simp [h, _task_to_response_dict, happ, hv])
    | (intro hv
       cases h : updateTouches u <;>
         simp [h, _task_to_response_dict, happ, hv])

/-- Witness for C1 at a concrete store, task and update document. -/
theorem update_task_partial_semantics_witness :
    ∃ resp store2, update_task [sampleTask1] cId1 sampleUpdate 20 = .ok (resp, store2) ∧
      (∀ s, sampleUpdate.status = some (some s) → resp.status = s) ∧
      (sampleUpdate.status = none ∨ sampleUpdate.status = some none →
        resp.status = sampleTask1.status) ∧
      (∀ p, sampleUpdate.priority = some (some p) → resp.priority = p) ∧
      (sampleUpdate.priority = none ∨ sampleUpdate.priority = some none →
        resp.priority = sampleTask1.priority) ∧
      (∀ v, sampleUpdate.title = some (some v) → resp.title = v) ∧
      (sampleUpdate.title = none → resp.title = sampleTask1.title) ∧
      (∀ v, sampleUpdate.description = some v → resp.description = v) ∧
      (sampleUpdate.description = none → resp.description = sampleTask1.description) ∧
      (∀ v, sampleUpdate.eta = some v → resp.eta = v) ∧
      (sampleUpdate.eta = none → resp.eta = sampleTask1.eta) ∧
      (∀ v, sampleUpdate.tags = some v → resp.tags = v) ∧
      (sampleUpdate.tags = none → resp.tags = sampleTask1.tags) ∧
      (∀ v, sampleUpdate.metadata = some v → resp.metadata = v) ∧
      (sampleUpdate.metadata = none → resp.metadata = sampleTask1.meta_data) :=
  update_task_partial_semantics [sampleTask1] cId1 sampleTask1 sampleUpdate 20
    (by rfl) (by rfl)

/-- C4: for every limit >= 1 and offset >= 0, the response carries
page = floor(offset / limit) + 1 by integer floor division, page_size
equal to the requested limit whatever the number of returned rows, and
total equal to the count of tasks matching the same filters without
limit/offset; when offset points beyond the available rows the tasks list
is empty while total still reflects the full filtered count. -/
theorem list_tasks_pagination_metadata (store : List Task)
    (status : Option TaskStatus) (priority : Option TaskPriority)
    (due_before due_after : Option Int) (limit offset : Nat)
    (hpos : 1 ≤ limit) :
    ∃ r, list_tasks store status priority due_before due_after limit offset = .ok r ∧
      r.page = offset / limit + 1 ∧
      r.page_size = limit ∧
      r.total = (store.filter
        (_apply_task_filters status priority due_before due_after)).length ∧
      (r.total ≤ offset → r.tasks = []) := by
  refine ⟨_, list_tasks_eq_of_ne_zero store status priority due_before due_after
    limit offset (by omega), rfl, rfl, rfl, ?_⟩
  intro hle
  have hd : (((store.filter
      (_apply_task_filters status priority due_before due_after)).mergeSort
        taskOrder).drop offset) = [] := by
    refine List.drop_eq_nil_of_le ?_
    rw [(List.mergeSort_perm _ taskOrder).length_eq]
    exact hle
  simp [hd]

/-- Witness for C4, at the spec's own example limit=3, offset=7: the page
is 7 // 3 + 1 = 3 and the single-row store is exhausted, so the tasks list
is empty while total is still the filtered count. -/
theorem list_tasks_pagination_metadata_witness :
    ∃ r, list_tasks [sampleTask1] none none none none 3 7 = .ok r ∧
      r.page = 7 / 3 + 1 ∧
      r.page_size = 3 ∧
      r.total = ([sampleTask1].filter (_apply_task_filters none none none none)).length ∧
      (r.total ≤ 7 → r.tasks = []) :=
  list_tasks_pagination_metadata [sampleTask1] none none none none 3 7 (by decide)

/-- C3: every supplied filter is ANDed: a task passes _apply_task_filters
exactly when it matches the supplied status and priority exactly, its eta
is non-null and at most due_before when due_before is supplied, and its
eta is non-null and at least due_after when due_after is supplied; a task
with null eta never matches either due filter. With offset 0 and a limit
at least the store size, list_tasks returns exactly the matching tasks. -/
theorem list_tasks_filter_semantics (store : List Task)
    (status : Option TaskStatus) (priority : Option TaskPriority)
    (due_before due_after : Option Int) (limit : Nat)
    (hpos : 1 ≤ limit) (hlim : store.length ≤ limit) :
    ∃ r, list_tasks store status priority due_before due_after limit 0 = .ok r ∧
      r.tasks.Perm ((store.filter
        (_apply_task_filters status priority due_before due_after)).map
          _task_to_response_dict) ∧
      (∀ t : Task, _apply_task_filters status priority due_before due_after t = true ↔
        ((∀ s, status = some s → t.status = s) ∧
         (∀ p, priority = some p → t.priority = p) ∧
         (∀ b, due_before = some b → ∃ e, t.eta = some e ∧ e ≤ b) ∧
         (∀ a, due_after = some a → ∃ e, t.eta = some e ∧ a ≤ e))) ∧
      (∀ t : Task, t.eta = none → due_before.isSome ∨ due_after.isSome →
        _apply_task_filters status priority due_before due_after t = false) := by
  refine ⟨_, list_tasks_eq_of_ne_zero store status priority due_before due_after
    limit 0 (by omega), ?_, ?_, ?_⟩
  · have hlen : ((store.filter
        (_apply_task_filters status priority due_before due_after)).mergeSort
          taskOrder).length ≤ limit := by
      rw [(List.mergeSort_perm _ taskOrder).length_eq]
      exact le_trans (List.length_filter_le _ _) hlim
    dsimp only
    rw [List.drop_zero, List.take_of_length_le hlen]
    exact (List.mergeSort_perm _ taskOrder).map _task_to_response_dict
  · intro t
    rcases status with _ | s <;> rcases priority with _ | p <;>
      rcases due_before with _ | b <;> rcases due_after with _ | a <;>
      rcases he : t.eta with _ | e <;>
      simp [_apply_task_filters, he, and_assoc]
  · intro t he hb
    rcases hb with hb | hb
    · rcases due_before with _ | b
      · simp at hb
      · simp [_apply_task_filters, he]
    · rcases due_after with _ | a
      · simp at hb
      · simp [_apply_task_filters, he]

/-- Witness for C3: one task with an eta and one without, a priority
filter and a due_before bound. -/
theorem list_tasks_filter_semantics_witness :
    ∃ r, list_tasks [sampleTask1, sampleTask2] none (some .low) (some 7) none 2 0 = .ok r ∧
      r.tasks.Perm (([sampleTask1, sampleTask2].filter
        (_apply_task_filters none (some .low) (some 7) none)).map
          _task_to_response_dict) ∧
      (∀ t : Task, _apply_task_filters none (some .low) (some 7) none t = true ↔
        ((∀ s, (none : Option TaskStatus) = some s → t.status = s) ∧
         (∀ p, (some TaskPriority.low : Option TaskPriority) = some p → t.priority = p) ∧
         (∀ b, (some 7 : Option Int) = some b → ∃ e, t.eta = some e ∧ e ≤ b) ∧
         (∀ a, (none : Option Int) = some a → ∃ e, t.eta = some e ∧ a ≤ e))) ∧
      (∀ t : Task, t.eta = none →
        (some 7 : Option Int).isSome ∨ (none : Option Int).isSome →
        _apply_task_filters none (some .low) (some 7) none t = false) :=
  list_tasks_filter_semantics [sampleTask1, sampleTask2] none (some .low)
    (some 7) none 2 (by decide) (by decide)

/-- C5: list_tasks orders results by created_at descending with id
ascending as the deterministic tie-break, and for any stored tasks with
distinct ids matching the filters and any limit >= 1, the pages obtained
by stepping offset by limit are consecutive slices of that order, and
their union is exactly the full matching list: the same distinct ids, no
duplicates, no gaps, in that order. -/
theorem list_tasks_ordering_and_coverage (store : List Task)
    (status : Option TaskStatus) (priority : Option TaskPriority)
    (due_before due_after : Option Int) (limit : Nat) (hpos : 1 ≤ limit)
    (hnd : (store.map Task.id).Nodup) :
    List.Pairwise (fun t1 t2 => taskOrder t1 t2 = true)
      ((store.filter
        (_apply_task_filters status priority due_before due_after)).mergeSort
          taskOrder) ∧
    ((store.filter
      (_apply_task_filters status priority due_before due_after)).mergeSort
        taskOrder).Perm
      (store.filter (_apply_task_filters status priority due_before due_after)) ∧
    (((store.filter
      (_apply_task_filters status priority due_before due_after)).mergeSort
        taskOrder).map Task.id).Nodup ∧
    (∀ k : Nat, ∃ r,
      list_tasks store status priority due_before due_after limit (k * limit) = .ok r ∧
      r.tasks = ((((store.filter
        (_apply_task_filters status priority due_before due_after)).mergeSort
          taskOrder).drop (k * limit)).take limit).map _task_to_response_dict) ∧
    (∀ k : Nat,
      ((store.filter
        (_apply_task_filters status priority due_before due_after)).mergeSort
          taskOrder).length ≤ k * limit →
      ((List.range k).map (fun i =>
        (((store.filter
          (_apply_task_filters status priority due_before due_after)).mergeSort
            taskOrder).drop (i * limit)).take limit)).flatten =
        (store.filter
          (_apply_task_filters status priority due_before due_after)).mergeSort
            taskOrder) := by
  refine ⟨List.sorted_mergeSort taskOrder_trans taskOrder_total _,
    List.mergeSort_perm _ taskOrder, ?_, ?_, ?_⟩
  · have h1 : ((store.filter
        (_apply_task_filters status priority due_before due_after)).map
          Task.id).Nodup :=
      ((List.filter_sublist store).map Task.id).nodup hnd
    exact (((List.mergeSort_perm _ taskOrder).map Task.id).symm).nodup h1
  · intro k
    exact ⟨_, list_tasks_eq_of_ne_zero store status priority due_before due_after
      limit (k * limit) (by omega), rfl⟩
  · intro k hk
    rw [join_pages_take]
    exact List.take_of_length_le hk

/-- Witness for C5: two stored tasks with distinct ids, page size 1. -/
theorem list_tasks_ordering_and_coverage_witness :
    List.Pairwise (fun t1 t2 => taskOrder t1 t2 = true)
      (([sampleTask1, sampleTask2].filter
        (_apply_task_filters none none none none)).mergeSort taskOrder) ∧
    (([sampleTask1, sampleTask2].filter
      (_apply_task_filters none none none none)).mergeSort taskOrder).Perm
      ([sampleTask1, sampleTask2].filter
        (_apply_task_filters none none none none)) ∧
    ((([sampleTask1, sampleTask2].filter
      (_apply_task_filters none none none none)).mergeSort taskOrder).map
        Task.id).Nodup ∧
    (∀ k : Nat, ∃ r,
      list_tasks [sampleTask1, sampleTask2] none none none none 1 (k * 1) = .ok r ∧
      r.tasks = (((([sampleTask1, sampleTask2].filter
        (_apply_task_filters none none none none)).mergeSort
          taskOrder).drop (k * 1)).take 1).map _task_to_response_dict) ∧
    (∀ k : Nat,
      (([sampleTask1, sampleTask2].filter
        (_apply_task_filters none none none none)).mergeSort
          taskOrder).length ≤ k * 1 →
      ((List.range k).map (fun i =>
        ((([sampleTask1, sampleTask2].filter
          (_apply_task_filters none none none none)).mergeSort
            taskOrder).drop (i * 1)).take 1)).flatten =
        ([sampleTask1, sampleTask2].filter
          (_apply_task_filters none none none none)).mergeSort taskOrder) :=
  list_tasks_ordering_and_coverage [sampleTask1, sampleTask2] none none none none
    1 (by decide) (by decide)

end TaskGenie
